import Mathlib

/-!
# Verification of the amplifier ccsdk_toolkit core (Copilot session adapter)

Shallow embedding of `amplifier/ccsdk_toolkit/core/models.py` and
`amplifier/ccsdk_toolkit/core/copilot_session.py`.

Modelling conventions:
* Python `float` delays are modelled as `Rat` (the only arithmetic performed on
  them is multiplication by 2, which is exact in binary floating point, so the
  rational model is faithful for the configured range (0, 10]).
* The pydantic `progress_callback` field is modelled as a presence flag
  (`Bool`); an actual invocation of the callback is recorded as an event in the
  observable trace of a query.
* Side effects of `CopilotSession.query` (subprocess launches, `print` calls,
  progress-callback invocations, `asyncio.sleep` calls) are recorded as an
  explicit event list returned next to the `SessionResponse`.
* The subprocess environment is a function `Nat → ProcResult` giving, for each
  0-based attempt index, the outcome of that attempt's subprocess execution:
  either a completed process (return code, stdout, stderr) or a raised
  exception message (caught by the bare `except Exception` in the source).
-/

/-- `AIProvider` enum from `models.py`. -/
inductive AIProvider where
  | claude
  | copilot
deriving DecidableEq

/-- `SessionOptions` from `models.py` (validated pydantic model).
`progress_callback` is the presence flag of the optional callback. -/
structure SessionOptions where
  system_prompt : String := "You are a helpful assistant"
  max_turns : Nat := 1
  retry_attempts : Nat := 3
  retry_delay : Rat := 1
  stream_output : Bool := false
  progress_callback : Bool := false
  provider : AIProvider := AIProvider.claude
deriving DecidableEq

/-- Pydantic validated construction of `SessionOptions`: field constraints
`max_turns : gt=0`, `retry_attempts : gt=0, le=10`, `retry_delay : gt=0, le=10.0`
are checked at construction time; a violation makes construction fail
(`none`). Candidate numeric values arrive as unconstrained `Int`/`Rat`. -/
def SessionOptions.validate (system_prompt : String) (max_turns : Int)
    (retry_attempts : Int) (retry_delay : Rat) (stream_output : Bool)
    (progress_callback : Bool) (provider : AIProvider) : Option SessionOptions :=
  if 0 < max_turns ∧ 0 < retry_attempts ∧ retry_attempts ≤ 10 ∧
      0 < retry_delay ∧ retry_delay ≤ 10 then
    some { system_prompt := system_prompt
           max_turns := max_turns.toNat
           retry_attempts := retry_attempts.toNat
           retry_delay := retry_delay
           stream_output := stream_output
           progress_callback := progress_callback
           provider := provider }
  else
    none

/-- A metadata value (`dict[str, Any]` values used by the source are the
attempt counter and the provider name). -/
inductive MetaValue where
  | nat (n : Nat)
  | str (s : String)
deriving DecidableEq

/-- `SessionResponse` from `models.py`. -/
structure SessionResponse where
  content : String := ""
  metadata : List (String × MetaValue) := []
  error : Option String := none
deriving DecidableEq

/-- `SessionResponse.success` property: `self.error is None and bool(self.content)`. -/
def SessionResponse.success (r : SessionResponse) : Bool :=
  r.error.isNone && !(r.content == "")

/-- Outcome of the `gh copilot --version` availability probe subprocess
(`subprocess.run` with `timeout=5`): completed with a return code, timed out
(`subprocess.TimeoutExpired`), or failed to run (`subprocess.SubprocessError`). -/
inductive ProbeOutcome where
  | exit (code : Int)
  | timeout
  | subprocessError
deriving DecidableEq

/-- The runtime environment inspected by `CopilotSession._check_prerequisites`:
whether `shutil.which` finds the `copilot` binary, whether it finds `gh`, and
the outcome of the `gh copilot --version` probe when it is run. -/
structure CopilotEnv where
  copilot_on_path : Bool
  gh_on_path : Bool
  gh_copilot_probe : ProbeOutcome
deriving DecidableEq

/-- Timeout (seconds) passed to the `gh copilot --version` probe. -/
def probeTimeoutSeconds : Nat := 5

/-- The `SDKNotAvailableError` message raised when neither the standalone
`copilot` binary nor a working `gh` copilot extension is found. -/
def sdkNotAvailableMessage : String :=
  "GitHub Copilot CLI not found. Install with one of:\n" ++
  "  - Install GitHub Copilot CLI: see https://docs.github.com/en/copilot/using-github-copilot/using-github-copilot-in-the-command-line\n" ++
  "  - Or install GitHub CLI: see https://cli.github.com/\n" ++
  "  Then install copilot extension: gh extension install github/gh-copilot"

/-- Occurrence of `sub` in `hay` at any position, by structural recursion over
the haystack (kernel-computable). -/
def containsSub (sub : List Char) : List Char → Bool
  | [] => sub.isEmpty
  | c :: t => sub.isPrefixOf (c :: t) || containsSub sub t

/-- `s` contains `sub` as a substring. -/
def containsSubstring (s sub : String) : Bool :=
  containsSub sub.data s.data

/-- `CopilotSession._check_prerequisites`: prefer the standalone `copilot`
binary; otherwise try `gh` with the copilot extension, accepting it only if
the version probe exits 0 (timeout and subprocess errors are swallowed by the
`except` clause and fall through); otherwise raise `SDKNotAvailableError`.
Returns the value assigned to `self._copilot_command`. -/
def check_prerequisites (e : CopilotEnv) : Except String (List String) :=
  if e.copilot_on_path then
    Except.ok ["copilot"]
  else if e.gh_on_path then
    match e.gh_copilot_probe with
    | ProbeOutcome.exit code =>
        if code = 0 then Except.ok ["gh", "copilot"]
        else Except.error sdkNotAvailableMessage
    | ProbeOutcome.timeout => Except.error sdkNotAvailableMessage
    | ProbeOutcome.subprocessError => Except.error sdkNotAvailableMessage
  else
    Except.error sdkNotAvailableMessage

/-- `CopilotSession` state: validated options and the resolved invocation
command (`self._copilot_command`, `None` until resolved). -/
structure CopilotSession where
  options : SessionOptions
  copilot_command : Option (List String)
deriving DecidableEq

/-- `CopilotSession.__init__`: runs `_check_prerequisites` (propagating its
`SDKNotAvailableError`) and then executes `self._copilot_command = None` —
in the source this assignment comes *after* the prerequisite check, so the
command resolved by the check is discarded until `__aenter__` re-resolves it. -/
def CopilotSession.init (e : CopilotEnv) (options : SessionOptions) :
    Except String CopilotSession :=
  match check_prerequisites e with
  | Except.error m => Except.error m
  | Except.ok _ => Except.ok { options := options, copilot_command := none }

/-- `CopilotSession.__aenter__`: if `self._copilot_command` is falsy (absent or
the empty list), re-run `_check_prerequisites` to resolve it. -/
def CopilotSession.aenter (e : CopilotEnv) (s : CopilotSession) :
    Except String CopilotSession :=
  if s.copilot_command.getD [] = [] then
    match check_prerequisites e with
    | Except.error m => Except.error m
    | Except.ok cmd => Except.ok { s with copilot_command := some cmd }
  else
    Except.ok s

/-- Result of one attempt's subprocess execution inside `query`: either the
process completed (`returncode`, decoded stdout, decoded stderr), or an
exception was raised while launching/communicating (caught by the bare
`except Exception` clause). -/
inductive ProcResult where
  | ok (returncode : Int) (stdout : String) (stderr : String)
  | exn (msg : String)
deriving DecidableEq

/-- Observable side effects of `query`, in order of occurrence. -/
inductive Event where
  | launch (cmd : List String)
  | printOut (s : String)
  | callback (s : String)
  | sleep (d : Rat)
deriving DecidableEq

/-- Python `str(x)` for `x : str | None` (the `last_error` variable). -/
def optStr : Option String → String
  | none => "None"
  | some s => s

/-- The effective streaming flag:
`stream if stream is not None else self.options.stream_output`. -/
def shouldStream (stream : Option Bool) (options : SessionOptions) : Bool :=
  match stream with
  | some b => b
  | none => options.stream_output

/-- Python `str.strip()` on decoded subprocess output: drop leading and
trailing whitespace.  Implemented by structural recursion over the character
list so that it evaluates inside the kernel (Lean's own `String.trim` is
defined by well-founded recursion on byte positions). -/
def pyStrip (s : String) : String :=
  String.mk (((s.data.dropWhile Char.isWhitespace).reverse.dropWhile
    Char.isWhitespace).reverse)

/-- Classification of the failure detail string recorded in `last_error` for a
retryable attempt: the `ValueError` message for an empty successful response,
the `SessionError` message for a non-zero exit, or the message of the caught
exception. -/
def failDetail : ProcResult → String
  | ProcResult.ok rc _ stderr =>
      if rc = 0 then "Received empty response from Copilot CLI"
      else "Copilot CLI error: " ++ pyStrip stderr
  | ProcResult.exn msg => msg

/-- An attempt outcome is retryable when the process exits non-zero, raises,
or exits zero with whitespace-only stdout. -/
def retryable : ProcResult → Bool
  | ProcResult.ok rc stdout _ => rc != 0 || (pyStrip stdout == "")
  | ProcResult.exn _ => true

/-- The retry loop of `CopilotSession.query` (`for attempt in range(N)`),
translated as recursion on the number of remaining iterations; `attempt` is
the 0-based Python loop variable, `retryDelay` the mutable local initialised
from `options.retry_delay`, `lastError` the mutable local initialised to
`None`.  When the iterations are exhausted it returns the
`Failed after N attempts` envelope.  The Python guard
`attempt < self.options.retry_attempts - 1` (sleep except on the last
attempt) is rendered as `attempt + 1 < options.retry_attempts`. -/
def queryLoop (options : SessionOptions) (cmd : List String)
    (stream : Option Bool) (env : Nat → ProcResult) :
    Nat → Nat → Rat → Option String → SessionResponse × List Event
  | 0, _, _, lastError =>
      ({ content := ""
         metadata := []
         error := some ("Failed after " ++ toString options.retry_attempts ++
           " attempts: " ++ optStr lastError) }, [])
  | remaining + 1, attempt, retryDelay, _ =>
      let failStep := fun (msg : String) =>
        let rest := queryLoop options cmd stream env remaining (attempt + 1)
          (retryDelay * 2) (some msg)
        if attempt + 1 < options.retry_attempts then
          (rest.1, Event.launch cmd :: Event.sleep retryDelay :: rest.2)
        else
          (rest.1, [Event.launch cmd])
      match env attempt with
      | ProcResult.ok rc stdout stderr =>
          if rc = 0 then
            let responseText := pyStrip stdout
            let streamEvs :=
              if shouldStream stream options && !(responseText == "") then
                [Event.printOut responseText]
              else []
            let cbEvs :=
              if options.progress_callback && !(responseText == "") then
                [Event.callback responseText]
              else []
            if responseText == "" then
              failStep "Received empty response from Copilot CLI"
            else
              ({ content := responseText
                 metadata := [("attempt", MetaValue.nat (attempt + 1)),
                              ("provider", MetaValue.str "copilot")]
                 error := none },
               Event.launch cmd :: (streamEvs ++ cbEvs))
          else
            failStep ("Copilot CLI error: " ++ pyStrip stderr)
      | ProcResult.exn msg => failStep msg

/-- `CopilotSession.query`: guard on an unresolved command, then run the retry
loop with the full argument vector `self._copilot_command + ["explain", prompt]`,
a fresh local delay equal to `options.retry_delay` and `last_error = None`.
Returns the envelope together with the trace of observable side effects. -/
def CopilotSession.query (s : CopilotSession) (prompt : String)
    (stream : Option Bool) (env : Nat → ProcResult) :
    SessionResponse × List Event :=
  if s.copilot_command.getD [] = [] then
    ({ content := ""
       metadata := []
       error := some "Session not initialized properly." }, [])
  else
    queryLoop s.options (s.copilot_command.getD [] ++ ["explain", prompt])
      stream env s.options.retry_attempts 0 s.options.retry_delay none

/-- State-threaded view of `query`: the Python method assigns only to local
variables (`retry_delay`, `last_error`, `attempt`, ...), never to a field of
`self`, so the post-state is the pre-state. -/
def CopilotSession.queryS (s : CopilotSession) (prompt : String)
    (stream : Option Bool) (env : Nat → ProcResult) :
    CopilotSession × SessionResponse × List Event :=
  (s, s.query prompt stream env)

/-- Number of subprocess launches recorded in a trace. -/
def numLaunches (evs : List Event) : Nat :=
  (evs.filter fun e => match e with
    | Event.launch _ => true
    | _ => false).length

/-- The durations of the `asyncio.sleep` calls in a trace, in order. -/
def sleepDurations (evs : List Event) : List Rat :=
  evs.filterMap fun e => match e with
    | Event.sleep d => some d
    | _ => none

/-- The arguments of progress-callback invocations in a trace, in order. -/
def callbackCalls (evs : List Event) : List String :=
  evs.filterMap fun e => match e with
    | Event.callback s => some s
    | _ => none

/-- The arguments of streaming `print` calls in a trace, in order. -/
def printCalls (evs : List Event) : List String :=
  evs.filterMap fun e => match e with
    | Event.printOut s => some s
    | _ => none

/-! ## Helper lemmas about the observation functions -/

theorem numLaunches_nil : numLaunches [] = 0 := rfl

theorem numLaunches_cons_launch (cmd : List String) (evs : List Event) :
    numLaunches (Event.launch cmd :: evs) = numLaunches evs + 1 := by
  simp [numLaunches, List.filter]

theorem numLaunches_cons_sleep (d : Rat) (evs : List Event) :
    numLaunches (Event.sleep d :: evs) = numLaunches evs := by
  simp [numLaunches, List.filter]

theorem numLaunches_cons_printOut (t : String) (evs : List Event) :
    numLaunches (Event.printOut t :: evs) = numLaunches evs := by
  simp [numLaunches, List.filter]

theorem numLaunches_cons_callback (t : String) (evs : List Event) :
    numLaunches (Event.callback t :: evs) = numLaunches evs := by
  simp [numLaunches, List.filter]

theorem sleepDurations_cons_launch (cmd : List String) (evs : List Event) :
    sleepDurations (Event.launch cmd :: evs) = sleepDurations evs := by
  simp [sleepDurations, List.filterMap_cons]

theorem sleepDurations_cons_sleep (d : Rat) (evs : List Event) :
    sleepDurations (Event.sleep d :: evs) = d :: sleepDurations evs := by
  simp [sleepDurations, List.filterMap_cons]

theorem callbackCalls_cons_launch (cmd : List String) (evs : List Event) :
    callbackCalls (Event.launch cmd :: evs) = callbackCalls evs := by
  simp [callbackCalls, List.filterMap_cons]

theorem callbackCalls_cons_sleep (d : Rat) (evs : List Event) :
    callbackCalls (Event.sleep d :: evs) = callbackCalls evs := by
  simp [callbackCalls, List.filterMap_cons]

theorem printCalls_cons_launch (cmd : List String) (evs : List Event) :
    printCalls (Event.launch cmd :: evs) = printCalls evs := by
  simp [printCalls, List.filterMap_cons]

theorem printCalls_cons_sleep (d : Rat) (evs : List Event) :
    printCalls (Event.sleep d :: evs) = printCalls evs := by
  simp [printCalls, List.filterMap_cons]

/-! ## Step lemmas for one iteration of the retry loop -/

/-- A retryable attempt (under the loop invariant `a + (r+1) = N` relating the
remaining iteration count to the 0-based loop variable) records the failure
detail, sleeps with the current delay unless it was the last attempt, doubles
the delay, and continues. -/
theorem queryLoop_step_fail (options : SessionOptions) (cmd : List String)
    (stream : Option Bool) (env : Nat → ProcResult) (r a : Nat) (rd : Rat)
    (le : Option String) (hinv : a + (r + 1) = options.retry_attempts)
    (hra : retryable (env a) = true) :
    queryLoop options cmd stream env (r + 1) a rd le =
      ((queryLoop options cmd stream env r (a + 1) (rd * 2)
          (some (failDetail (env a)))).1,
        Event.launch cmd ::
          (if 0 < r then
            Event.sleep rd ::
              (queryLoop options cmd stream env r (a + 1) (rd * 2)
                (some (failDetail (env a)))).2
          else [])) := by
  cases henv : env a with
  | ok rc stdout stderr =>
    by_cases hrc : rc = 0
    · subst hrc
      have hempty : (pyStrip stdout == "") = true := by
        rw [henv] at hra; simpa [retryable] using hra
      by_cases hr : 0 < r
      · have h1 : a + 1 < options.retry_attempts := by omega
        simp [queryLoop, henv, hempty, failDetail, hr, h1]
      · have h1 : ¬ (a + 1 < options.retry_attempts) := by omega
        simp [queryLoop, henv, hempty, failDetail, hr, h1]
    · by_cases hr : 0 < r
      · have h1 : a + 1 < options.retry_attempts := by omega
        simp [queryLoop, henv, failDetail, hrc, hr, h1]
      · have h1 : ¬ (a + 1 < options.retry_attempts) := by omega
        simp [queryLoop, henv, failDetail, hrc, hr, h1]
  | exn msg =>
    by_cases hr : 0 < r
    · have h1 : a + 1 < options.retry_attempts := by omega
      simp [queryLoop, henv, failDetail, hr, h1]
    · have h1 : ¬ (a + 1 < options.retry_attempts) := by omega
      simp [queryLoop, henv, failDetail, hr, h1]

/-- A zero-exit attempt with non-empty trimmed stdout returns immediately,
emitting the streaming print and the progress-callback invocation exactly when
their respective flags are set. -/
theorem queryLoop_step_succ (options : SessionOptions) (cmd : List String)
    (stream : Option Bool) (env : Nat → ProcResult) (r a : Nat) (rd : Rat)
    (le : Option String) (stdout stderr : String)
    (henv : env a = ProcResult.ok 0 stdout stderr)
    (hne : ¬ (pyStrip stdout = "")) :
    queryLoop options cmd stream env (r + 1) a rd le =
      ({ content := pyStrip stdout,
         metadata := [("attempt", MetaValue.nat (a + 1)),
                      ("provider", MetaValue.str "copilot")],
         error := none },
        Event.launch cmd ::
          ((if shouldStream stream options then [Event.printOut (pyStrip stdout)] else []) ++
           (if options.progress_callback then [Event.callback (pyStrip stdout)] else []))) := by
  have hb : (pyStrip stdout == "") = false := by simpa using hne
  simp [queryLoop, henv, hb]

/-- A non-retryable outcome is a zero exit with non-empty trimmed stdout. -/
theorem retryable_false (pr : ProcResult) (h : retryable pr = false) :
    ∃ stdout stderr, pr = ProcResult.ok 0 stdout stderr ∧ ¬ (pyStrip stdout = "") := by
  cases pr with
  | ok rc stdout stderr =>
    simp [retryable] at h
    exact ⟨stdout, stderr, by rw [h.1], h.2⟩
  | exn m => simp [retryable] at h

/-! ## Loop invariant lemmas -/

/-- When every attempt is retryable, the loop returns the exhaustion envelope
whose detail is the most recent failure, and launches one subprocess per
remaining iteration. -/
theorem queryLoop_fail (options : SessionOptions) (cmd : List String)
    (stream : Option Bool) (env : Nat → ProcResult) :
    ∀ r a rd le, a + r = options.retry_attempts →
      (∀ j, j < r → retryable (env (a + j)) = true) →
      (queryLoop options cmd stream env r a rd le).1 =
        { content := "", metadata := [],
          error := some ("Failed after " ++ toString options.retry_attempts ++
            " attempts: " ++
            optStr (if r = 0 then le else some (failDetail (env (a + r - 1))))) } ∧
      numLaunches (queryLoop options cmd stream env r a rd le).2 = r := by
  intro r
  induction r with
  | zero =>
    intro a rd le _ _
    simp [queryLoop, numLaunches]
  | succ r ih =>
    intro a rd le hinv hre
    have hra : retryable (env a) = true := by
      simpa using hre 0 (Nat.succ_pos r)
    rw [queryLoop_step_fail options cmd stream env r a rd le hinv hra]
    have ihm := ih (a + 1) (rd * 2) (some (failDetail (env a))) (by omega)
      (fun j hj => by
        have h1 : (a + 1) + j = a + (j + 1) := by omega
        rw [h1]; exact hre (j + 1) (by omega))
    constructor
    · show (queryLoop options cmd stream env r (a + 1) (rd * 2)
        (some (failDetail (env a)))).1 = _
      rw [ihm.1]
      by_cases hr : r = 0
      · subst hr; simp
      · have h2 : ¬ (r + 1 = 0) := by omega
        have h3 : (a + 1) + r - 1 = a + (r + 1) - 1 := by omega
        simp [hr, h2, h3]
    · by_cases hr : 0 < r
      · simp only [hr, if_pos]
        rw [numLaunches_cons_launch, numLaunches_cons_sleep, ihm.2]
      · have hr0 : r = 0 := by omega
        subst hr0
        simp [numLaunches]

/-- When attempts `a..a+kp-1` are retryable and attempt `a+kp` exits 0 with
non-empty trimmed stdout, the loop returns the success envelope of that
attempt (1-based attempt counter `a+kp+1`) and launches exactly `kp+1`
subprocesses. -/
theorem queryLoop_succ (options : SessionOptions) (cmd : List String)
    (stream : Option Bool) (env : Nat → ProcResult) (stdout stderr : String) :
    ∀ kp r a rd le, a + r = options.retry_attempts → kp + 1 ≤ r →
      (∀ j, j < kp → retryable (env (a + j)) = true) →
      env (a + kp) = ProcResult.ok 0 stdout stderr →
      ¬ (pyStrip stdout = "") →
      (queryLoop options cmd stream env r a rd le).1 =
        { content := pyStrip stdout,
          metadata := [("attempt", MetaValue.nat (a + kp + 1)),
                       ("provider", MetaValue.str "copilot")],
          error := none } ∧
      numLaunches (queryLoop options cmd stream env r a rd le).2 = kp + 1 := by
  intro kp
  induction kp with
  | zero =>
    intro r a rd le hinv hkr _ henv hne
    obtain ⟨r', rfl⟩ : ∃ r', r = r' + 1 := ⟨r - 1, by omega⟩
    rw [queryLoop_step_succ options cmd stream env r' a rd le stdout stderr
      (by simpa using henv) hne]
    refine ⟨rfl, ?_⟩
    rw [numLaunches_cons_launch]
    have h0 : numLaunches
        ((if shouldStream stream options then [Event.printOut (pyStrip stdout)] else []) ++
         (if options.progress_callback then [Event.callback (pyStrip stdout)] else [])) = 0 := by
      by_cases h1 : shouldStream stream options <;>
        by_cases h2 : options.progress_callback <;>
          simp [h1, h2, numLaunches, List.filter]
    rw [h0]
  | succ kp ih =>
    intro r a rd le hinv hkr hfail henv hne
    obtain ⟨r', rfl⟩ : ∃ r', r = r' + 1 := ⟨r - 1, by omega⟩
    have hra : retryable (env a) = true := by
      simpa using hfail 0 (Nat.succ_pos kp)
    rw [queryLoop_step_fail options cmd stream env r' a rd le hinv hra]
    have ihm := ih r' (a + 1) (rd * 2) (some (failDetail (env a))) (by omega) (by omega)
      (fun j hj => by
        have h1 : (a + 1) + j = a + (j + 1) := by omega
        rw [h1]; exact hfail (j + 1) (by omega))
      (by
        have h1 : (a + 1) + kp = a + (kp + 1) := by omega
        rw [h1]; exact henv)
      hne
    constructor
    · show (queryLoop options cmd stream env r' (a + 1) (rd * 2)
        (some (failDetail (env a)))).1 = _
      rw [ihm.1]
      have h2 : (a + 1) + kp + 1 = a + (kp + 1) + 1 := by omega
      rw [h2]
    · have hr : 0 < r' := by omega
      simp only [hr, if_pos]
      rw [numLaunches_cons_launch, numLaunches_cons_sleep, ihm.2]

/-- The sleep durations of a loop run started with current delay `rd` are
exactly `rd * 2^0, rd * 2^1, ...`, one fewer than the number of launches; and
at least one launch happens iff at least one iteration remains. -/
theorem queryLoop_sleeps (options : SessionOptions) (cmd : List String)
    (stream : Option Bool) (env : Nat → ProcResult) :
    ∀ r a rd le, a + r = options.retry_attempts →
      sleepDurations (queryLoop options cmd stream env r a rd le).2 =
        (List.range (numLaunches (queryLoop options cmd stream env r a rd le).2 - 1)).map
          (fun j => rd * 2 ^ j) ∧
      (numLaunches (queryLoop options cmd stream env r a rd le).2 = 0 ↔ r = 0) := by
  intro r
  induction r with
  | zero =>
    intro a rd le _
    simp [queryLoop, numLaunches, sleepDurations]
  | succ r ih =>
    intro a rd le hinv
    by_cases hra : retryable (env a) = true
    · rw [queryLoop_step_fail options cmd stream env r a rd le hinv hra]
      by_cases hr : 0 < r
      · simp only [hr, if_pos]
        have ihm := ih (a + 1) (rd * 2) (some (failDetail (env a))) (by omega)
        obtain ⟨L, hL⟩ : ∃ L, numLaunches (queryLoop options cmd stream env r (a + 1)
            (rd * 2) (some (failDetail (env a)))).2 = L + 1 := by
          refine ⟨numLaunches (queryLoop options cmd stream env r (a + 1)
            (rd * 2) (some (failDetail (env a)))).2 - 1, ?_⟩
          have h2 := ihm.2
          omega
        constructor
        · rw [sleepDurations_cons_launch, sleepDurations_cons_sleep,
            numLaunches_cons_launch, numLaunches_cons_sleep, ihm.1, hL]
          simp only [Nat.add_sub_cancel]
          rw [List.range_succ_eq_map, List.map_cons, List.map_map]
          congr 1
          · simp
          · refine List.map_congr_left (fun j _ => ?_)
            simp only [Function.comp]
            rw [pow_succ]
            ring
        · rw [numLaunches_cons_launch, numLaunches_cons_sleep, hL]
          simp
      · have hr0 : r = 0 := by omega
        subst hr0
        simp [queryLoop, numLaunches, sleepDurations, List.filter, List.filterMap]
    · obtain ⟨stdout, stderr, henv, hne⟩ :=
        retryable_false (env a) (by simpa using hra)
      rw [queryLoop_step_succ options cmd stream env r a rd le stdout stderr henv hne]
      have h0 : numLaunches
          ((if shouldStream stream options then [Event.printOut (pyStrip stdout)] else []) ++
           (if options.progress_callback then [Event.callback (pyStrip stdout)] else [])) = 0 := by
        by_cases h1 : shouldStream stream options <;>
          by_cases h2 : options.progress_callback <;>
            simp [h1, h2, numLaunches, List.filter]
      have hs0 : sleepDurations
          ((if shouldStream stream options then [Event.printOut (pyStrip stdout)] else []) ++
           (if options.progress_callback then [Event.callback (pyStrip stdout)] else [])) = [] := by
        by_cases h1 : shouldStream stream options <;>
          by_cases h2 : options.progress_callback <;>
            simp [h1, h2, sleepDurations, List.filterMap]
      constructor
      · rw [sleepDurations_cons_launch, hs0, numLaunches_cons_launch, h0]
        simp
      · rw [numLaunches_cons_launch, h0]
        simp

/-- The progress callback fires exactly once, with the returned content, on a
successful run (when configured), and never on a failed run. -/
theorem queryLoop_callback (options : SessionOptions) (cmd : List String)
    (stream : Option Bool) (env : Nat → ProcResult) :
    ∀ r a rd le, a + r = options.retry_attempts →
      ((queryLoop options cmd stream env r a rd le).1.success = true →
        callbackCalls (queryLoop options cmd stream env r a rd le).2 =
          if options.progress_callback then
            [(queryLoop options cmd stream env r a rd le).1.content]
          else []) ∧
      ((queryLoop options cmd stream env r a rd le).1.success = false →
        callbackCalls (queryLoop options cmd stream env r a rd le).2 = []) := by
  intro r
  induction r with
  | zero =>
    intro a rd le _
    constructor
    · intro h
      simp [queryLoop, SessionResponse.success] at h
    · intro _
      simp [queryLoop, callbackCalls, List.filterMap]
  | succ r ih =>
    intro a rd le hinv
    by_cases hra : retryable (env a) = true
    · rw [queryLoop_step_fail options cmd stream env r a rd le hinv hra]
      by_cases hr : 0 < r
      · simp only [hr, if_pos]
        have ihm := ih (a + 1) (rd * 2) (some (failDetail (env a))) (by omega)
        constructor
        · intro h
          rw [callbackCalls_cons_launch, callbackCalls_cons_sleep]
          exact ihm.1 h
        · intro h
          rw [callbackCalls_cons_launch, callbackCalls_cons_sleep]
          exact ihm.2 h
      · have hr0 : r = 0 := by omega
        subst hr0
        constructor
        · intro h
          simp [queryLoop, SessionResponse.success] at h
        · intro _
          simp [callbackCalls, List.filterMap]
    · obtain ⟨stdout, stderr, henv, hne⟩ :=
        retryable_false (env a) (by simpa using hra)
      rw [queryLoop_step_succ options cmd stream env r a rd le stdout stderr henv hne]
      constructor
      · intro _
        rw [callbackCalls_cons_launch]
        by_cases h1 : shouldStream stream options <;>
          by_cases h2 : options.progress_callback <;>
            simp [h1, h2, callbackCalls, List.filterMap]
      · intro h
        simp [SessionResponse.success] at h
        exact absurd h hne

/-- The streaming print fires exactly once, with the returned content, on a
successful run when the effective streaming flag is set, and never otherwise. -/
theorem queryLoop_prints (options : SessionOptions) (cmd : List String)
    (stream : Option Bool) (env : Nat → ProcResult) :
    ∀ r a rd le, a + r = options.retry_attempts →
      ((queryLoop options cmd stream env r a rd le).1.success = true →
        printCalls (queryLoop options cmd stream env r a rd le).2 =
          if shouldStream stream options then
            [(queryLoop options cmd stream env r a rd le).1.content]
          else []) ∧
      ((queryLoop options cmd stream env r a rd le).1.success = false →
        printCalls (queryLoop options cmd stream env r a rd le).2 = []) := by
  intro r
  induction r with
  | zero =>
    intro a rd le _
    constructor
    · intro h
      simp [queryLoop, SessionResponse.success] at h
    · intro _
      simp [queryLoop, printCalls, List.filterMap]
  | succ r ih =>
    intro a rd le hinv
    by_cases hra : retryable (env a) = true
    · rw [queryLoop_step_fail options cmd stream env r a rd le hinv hra]
      by_cases hr : 0 < r
      · simp only [hr, if_pos]
        have ihm := ih (a + 1) (rd * 2) (some (failDetail (env a))) (by omega)
        constructor
        · intro h
          rw [printCalls_cons_launch, printCalls_cons_sleep]
          exact ihm.1 h
        · intro h
          rw [printCalls_cons_launch, printCalls_cons_sleep]
          exact ihm.2 h
      · have hr0 : r = 0 := by omega
        subst hr0
        constructor
        · intro h
          simp [queryLoop, SessionResponse.success] at h
        · intro _
          simp [printCalls, List.filterMap]
    · obtain ⟨stdout, stderr, henv, hne⟩ :=
        retryable_false (env a) (by simpa using hra)
      rw [queryLoop_step_succ options cmd stream env r a rd le stdout stderr henv hne]
      constructor
      · intro _
        rw [printCalls_cons_launch]
        by_cases h1 : shouldStream stream options <;>
          by_cases h2 : options.progress_callback <;>
            simp [h1, h2, printCalls, List.filterMap]
      · intro h
        simp [SessionResponse.success] at h
        exact absurd h hne

/-! ## Concrete sessions and environments used by the witnesses -/

/-- An open session: resolved command, 3 attempts, initial delay 1 second,
progress callback configured, streaming off by default. -/
def sessionA : CopilotSession :=
  { options := { retry_attempts := 3, retry_delay := 1, progress_callback := true },
    copilot_command := some ["copilot"] }

/-- A session whose invocation command was never resolved. -/
def sessionClosed : CopilotSession :=
  { options := {}, copilot_command := none }

/-- Every attempt raises an exception with message `boom`. -/
def envAllFail : Nat → ProcResult := fun _ => ProcResult.exn "boom"

/-- Attempt 1 exits non-zero; attempt 2 exits 0 with stdout `" hello "`. -/
def envSucceedSecond : Nat → ProcResult := fun j =>
  if j = 0 then ProcResult.ok 1 "" "bad exit" else ProcResult.ok 0 " hello " ""

/-! ## Claims -/

/-- C1: on an open adapter whose every attempt yields a retryable condition
(zero exit with empty trimmed output, non-zero exit, or command failure),
`query` returns normally with an envelope of empty content and error
`"Failed after N attempts: <last failure detail>"` where the detail comes from
the most recent failure only, and the underlying query subprocess is launched
exactly `N = retry_attempts` times. -/
theorem copilot_query_exhausts_retries (s : CopilotSession) (cmd : List String)
    (prompt : String) (stream : Option Bool) (env : Nat → ProcResult)
    (hcmd : s.copilot_command = some cmd) (hne : cmd ≠ [])
    (hN : 1 ≤ s.options.retry_attempts)
    (hfail : ∀ j, j < s.options.retry_attempts → retryable (env j) = true) :
    (s.query prompt stream env).1 =
      { content := "", metadata := [],
        error := some ("Failed after " ++ toString s.options.retry_attempts ++
          " attempts: " ++ failDetail (env (s.options.retry_attempts - 1))) } ∧
    numLaunches (s.query prompt stream env).2 = s.options.retry_attempts := by
  have hq : s.query prompt stream env =
      queryLoop s.options (cmd ++ ["explain", prompt]) stream env
        s.options.retry_attempts 0 s.options.retry_delay none := by
    simp [CopilotSession.query, hcmd, hne]
  rw [hq]
  have h := queryLoop_fail s.options (cmd ++ ["explain", prompt]) stream env
    s.options.retry_attempts 0 s.options.retry_delay none (by omega)
    (fun j hj => by simpa using hfail j hj)
  refine ⟨?_, h.2⟩
  rw [h.1]
  have h0 : ¬ (s.options.retry_attempts = 0) := by omega
  simp [h0, optStr]

theorem copilot_query_exhausts_retries_witness :
    (sessionA.query "p" none envAllFail).1 =
      { content := "", metadata := [],
        error := some "Failed after 3 attempts: boom" } ∧
    numLaunches (sessionA.query "p" none envAllFail).2 = 3 := by
  have h := copilot_query_exhausts_retries sessionA ["copilot"] "p" none envAllFail
    rfl (by decide) (by decide) (fun j _ => rfl)
  exact ⟨by rw [h.1]; decide, h.2⟩

/-- C2: on an open adapter whose attempts `1..k-1` each yield a retryable
failure and whose attempt `k ≤ retry_attempts` exits 0 with non-empty trimmed
output, `query` returns immediately after attempt `k` with a successful
envelope whose content is the trimmed output and whose metadata records
attempt `k` and the provider name; exactly `k` subprocesses are launched. -/
theorem copilot_query_first_success (s : CopilotSession) (cmd : List String)
    (prompt : String) (stream : Option Bool) (env : Nat → ProcResult)
    (k : Nat) (stdout stderr : String)
    (hcmd : s.copilot_command = some cmd) (hne : cmd ≠ [])
    (hk1 : 1 ≤ k) (hkN : k ≤ s.options.retry_attempts)
    (hfail : ∀ j, j < k - 1 → retryable (env j) = true)
    (hsucc : env (k - 1) = ProcResult.ok 0 stdout stderr)
    (hnee : ¬ (pyStrip stdout = "")) :
    (s.query prompt stream env).1 =
      { content := pyStrip stdout,
        metadata := [("attempt", MetaValue.nat k),
                     ("provider", MetaValue.str "copilot")],
        error := none } ∧
    (s.query prompt stream env).1.success = true ∧
    numLaunches (s.query prompt stream env).2 = k := by
  have hq : s.query prompt stream env =
      queryLoop s.options (cmd ++ ["explain", prompt]) stream env
        s.options.retry_attempts 0 s.options.retry_delay none := by
    simp [CopilotSession.query, hcmd, hne]
  rw [hq]
  obtain ⟨kp, rfl⟩ : ∃ kp, k = kp + 1 := ⟨k - 1, by omega⟩
  have h := queryLoop_succ s.options (cmd ++ ["explain", prompt]) stream env
    stdout stderr kp s.options.retry_attempts 0 s.options.retry_delay none
    (by omega) (by omega)
    (fun j hj => by simpa using hfail j (by omega))
    (by simpa using hsucc)
    hnee
  refine ⟨?_, ?_, h.2⟩
  · rw [h.1]
    simp
  · rw [h.1]
    simp [SessionResponse.success, hnee]

theorem copilot_query_first_success_witness :
    (sessionA.query "p" none envSucceedSecond).1 =
      { content := "hello",
        metadata := [("attempt", MetaValue.nat 2),
                     ("provider", MetaValue.str "copilot")],
        error := none } ∧
    (sessionA.query "p" none envSucceedSecond).1.success = true ∧
    numLaunches (sessionA.query "p" none envSucceedSecond).2 = 2 := by
  have h := copilot_query_first_success sessionA ["copilot"] "p" none envSucceedSecond
    2 " hello " "" rfl (by decide) (by decide) (by decide)
    (fun j hj => by
      have hj0 : j = 0 := by omega
      subst hj0
      decide)
    (by decide) (by decide)
  exact ⟨by rw [h.1]; decide, h.2.1, h.2.2⟩

/-- C3: on an open adapter with initial delay `d = retry_delay`, the backoff
sleep before attempt `i` (for every `i` with `1 < i ≤` number of attempts
actually run) has duration exactly `d * 2^(i-2)`, with no cap, and no sleep
occurs after the final attempt (there are exactly `attempts run - 1` sleeps). -/
theorem copilot_query_backoff_doubling (s : CopilotSession) (cmd : List String)
    (prompt : String) (stream : Option Bool) (env : Nat → ProcResult)
    (hcmd : s.copilot_command = some cmd) (hne : cmd ≠ []) :
    (sleepDurations (s.query prompt stream env).2).length =
      numLaunches (s.query prompt stream env).2 - 1 ∧
    ∀ i, 2 ≤ i → i ≤ numLaunches (s.query prompt stream env).2 →
      (sleepDurations (s.query prompt stream env).2)[i - 2]? =
        some (s.options.retry_delay * 2 ^ (i - 2)) := by
  have hq : s.query prompt stream env =
      queryLoop s.options (cmd ++ ["explain", prompt]) stream env
        s.options.retry_attempts 0 s.options.retry_delay none := by
    simp [CopilotSession.query, hcmd, hne]
  rw [hq]
  have h := queryLoop_sleeps s.options (cmd ++ ["explain", prompt]) stream env
    s.options.retry_attempts 0 s.options.retry_delay none (by omega)
  constructor
  · rw [h.1]
    simp
  · intro i h2 hi
    rw [h.1]
    rw [List.getElem?_map, List.getElem?_range (by omega)]
    rfl

theorem copilot_query_backoff_doubling_witness :
    (sleepDurations (sessionA.query "p" none envAllFail).2).length = 2 ∧
    (sleepDurations (sessionA.query "p" none envAllFail).2)[0]? = some 1 ∧
    (sleepDurations (sessionA.query "p" none envAllFail).2)[1]? = some 2 := by
  have h := copilot_query_backoff_doubling sessionA ["copilot"] "p" none envAllFail
    rfl (by decide)
  refine ⟨by rw [h.1]; decide, ?_, ?_⟩
  · have h2 := h.2 2 (by decide) (by decide)
    norm_num at h2
    rw [h2]
    norm_num [sessionA]
  · have h3 := h.2 3 (by decide) (by decide)
    norm_num at h3
    rw [h3]
    norm_num [sessionA]

/-- C4: for every `SessionResponse`, the derived `success` flag is true if and
only if `error` is absent and `content` is a non-empty string (covering all
four combinations of error present/absent and content empty/non-empty). -/
theorem sessionResponse_success_iff (r : SessionResponse) :
    r.success = true ↔ (r.error = none ∧ r.content ≠ "") := by
  obtain ⟨content, metadata, error⟩ := r
  cases error <;> simp [SessionResponse.success]

/-- C5: construction of `SessionOptions` (with the remaining validated field
`max_turns` in range) succeeds if and only if `retry_attempts` lies in the
integer range `[1, 10]` and `retry_delay` lies in the interval `(0, 10]`; any
value outside either range makes construction itself fail. -/
theorem sessionOptions_validate_range (system_prompt : String)
    (max_turns retry_attempts : Int) (retry_delay : Rat)
    (stream_output progress_callback : Bool) (provider : AIProvider)
    (hmt : 0 < max_turns) :
    (SessionOptions.validate system_prompt max_turns retry_attempts retry_delay
        stream_output progress_callback provider).isSome = true ↔
      (1 ≤ retry_attempts ∧ retry_attempts ≤ 10 ∧
        0 < retry_delay ∧ retry_delay ≤ 10) := by
  by_cases h : 0 < max_turns ∧ 0 < retry_attempts ∧ retry_attempts ≤ 10 ∧
      0 < retry_delay ∧ retry_delay ≤ 10
  · simp only [SessionOptions.validate, if_pos h, Option.isSome_some, true_iff]
    exact ⟨by omega, h.2.2.1, h.2.2.2.1, h.2.2.2.2⟩
  · simp only [SessionOptions.validate, if_neg h, Option.isSome_none,
      Bool.false_eq_true, false_iff]
    intro ⟨h1, h2, h3, h4⟩
    exact h ⟨hmt, by omega, h2, h3, h4⟩

theorem sessionOptions_validate_range_witness :
    (0 < (1 : Int)) ∧
    ((SessionOptions.validate "" 1 3 1 false false AIProvider.claude).isSome = true ↔
      (1 ≤ (3 : Int) ∧ (3 : Int) ≤ 10 ∧ 0 < (1 : Rat) ∧ (1 : Rat) ≤ 10)) :=
  ⟨by norm_num,
   sessionOptions_validate_range "" 1 3 1 false false AIProvider.claude (by norm_num)⟩

set_option maxRecDepth 8192 in
/-- C6: the availability check of the adapter resolves to the standalone
invocation form when the `copilot` binary is on the path; otherwise, when the
`gh` CLI is on the path and the extension version probe (bounded by the
5-second timeout) exits 0, it resolves to the extension invocation form;
otherwise (including probe timeout, probe subprocess error and non-zero probe
exit) it — and with it adapter construction — fails with the
`SDKNotAvailableError` message, which lists both installation remediation
paths. -/
theorem copilot_check_prerequisites_resolution (e : CopilotEnv)
    (options : SessionOptions) :
    (e.copilot_on_path = true → check_prerequisites e = Except.ok ["copilot"]) ∧
    (e.copilot_on_path = false → e.gh_on_path = true →
      e.gh_copilot_probe = ProbeOutcome.exit 0 →
      check_prerequisites e = Except.ok ["gh", "copilot"]) ∧
    (e.copilot_on_path = false →
      (e.gh_on_path = false ∨ e.gh_copilot_probe ≠ ProbeOutcome.exit 0) →
      check_prerequisites e = Except.error sdkNotAvailableMessage ∧
      CopilotSession.init e options = Except.error sdkNotAvailableMessage) ∧
    containsSubstring sdkNotAvailableMessage
      "Install GitHub Copilot CLI: see https://docs.github.com/en/copilot/using-github-copilot/using-github-copilot-in-the-command-line" = true ∧
    containsSubstring sdkNotAvailableMessage
      "install copilot extension: gh extension install github/gh-copilot" = true ∧
    probeTimeoutSeconds = 5 := by
  obtain ⟨cop, gh, probe⟩ := e
  have hinit : check_prerequisites ⟨cop, gh, probe⟩ =
      Except.error sdkNotAvailableMessage →
      CopilotSession.init ⟨cop, gh, probe⟩ options =
        Except.error sdkNotAvailableMessage := by
    intro hm
    simp [CopilotSession.init, hm]
  refine ⟨?_, ?_, ?_, by decide, by decide, rfl⟩
  · intro h
    simp only at h
    simp [check_prerequisites, h]
  · intro h1 h2 h3
    simp only at h1 h2 h3
    simp [check_prerequisites, h1, h2, h3]
  · intro h1 h2
    simp only at h1 h2
    have hck : check_prerequisites ⟨cop, gh, probe⟩ =
        Except.error sdkNotAvailableMessage := by
      subst h1
      rcases h2 with h2 | h2
      · subst h2
        simp [check_prerequisites]
      · cases probe with
        | exit code =>
          have hc : ¬ (code = 0) := by
            intro hc0
            exact h2 (by rw [hc0])
          cases gh <;> simp [check_prerequisites, hc]
        | timeout => cases gh <;> simp [check_prerequisites]
        | subprocessError => cases gh <;> simp [check_prerequisites]
    exact ⟨hck, hinit hck⟩

theorem copilot_check_prerequisites_resolution_witness :
    check_prerequisites ⟨false, true, ProbeOutcome.exit 0⟩ =
      Except.ok ["gh", "copilot"] ∧
    check_prerequisites ⟨true, false, ProbeOutcome.timeout⟩ =
      Except.ok ["copilot"] ∧
    CopilotSession.init ⟨false, false, ProbeOutcome.timeout⟩ {} =
      Except.error sdkNotAvailableMessage := by
  refine ⟨(copilot_check_prerequisites_resolution ⟨false, true, ProbeOutcome.exit 0⟩
      {}).2.1 rfl rfl rfl,
    (copilot_check_prerequisites_resolution ⟨true, false, ProbeOutcome.timeout⟩
      {}).1 rfl,
    ((copilot_check_prerequisites_resolution ⟨false, false, ProbeOutcome.timeout⟩
      {}).2.2.1 rfl (Or.inl rfl)).2⟩

/-- C7: on an open adapter with a configured progress callback, a successful
query invokes the callback exactly once, with the full trimmed response text;
a query all of whose attempts end in empty output or error invokes it zero
times — in particular it never fires once per retry attempt. -/
theorem copilot_query_progress_callback_once (s : CopilotSession)
    (cmd : List String) (prompt : String) (stream : Option Bool)
    (env : Nat → ProcResult)
    (hcmd : s.copilot_command = some cmd) (hne : cmd ≠ [])
    (hpc : s.options.progress_callback = true) :
    ((s.query prompt stream env).1.success = true →
      callbackCalls (s.query prompt stream env).2 =
        [(s.query prompt stream env).1.content]) ∧
    ((s.query prompt stream env).1.success = false →
      callbackCalls (s.query prompt stream env).2 = []) := by
  have hq : s.query prompt stream env =
      queryLoop s.options (cmd ++ ["explain", prompt]) stream env
        s.options.retry_attempts 0 s.options.retry_delay none := by
    simp [CopilotSession.query, hcmd, hne]
  rw [hq]
  have h := queryLoop_callback s.options (cmd ++ ["explain", prompt]) stream env
    s.options.retry_attempts 0 s.options.retry_delay none (by omega)
  refine ⟨fun hs => ?_, h.2⟩
  have h1 := h.1 hs
  rw [hpc] at h1
  simpa using h1

theorem copilot_query_progress_callback_once_witness :
    callbackCalls (sessionA.query "p" none envSucceedSecond).2 = ["hello"] ∧
    callbackCalls (sessionA.query "p" none envAllFail).2 = [] := by
  have h1 := (copilot_query_progress_callback_once sessionA ["copilot"] "p" none
    envSucceedSecond rfl (by decide) rfl).1 (by decide)
  have h2 := (copilot_query_progress_callback_once sessionA ["copilot"] "p" none
    envAllFail rfl (by decide) rfl).2 (by decide)
  exact ⟨by rw [h1]; decide, h2⟩

/-- C8: the effective streaming flag of a query call equals the `stream`
override when one is provided and the configuration's `stream_output`
otherwise; the streamed output (a single print of the returned content) is
governed by that flag; and a call leaves the session unchanged, so a call
with an override does not affect subsequent calls made without one. -/
theorem copilot_query_stream_override (s : CopilotSession) (prompt : String)
    (stream : Option Bool) (env : Nat → ProcResult) :
    (∀ b, shouldStream (some b) s.options = b) ∧
    shouldStream none s.options = s.options.stream_output ∧
    ((s.query prompt stream env).1.success = true →
      printCalls (s.query prompt stream env).2 =
        if shouldStream stream s.options then
          [(s.query prompt stream env).1.content]
        else []) ∧
    ((s.query prompt stream env).1.success = false →
      printCalls (s.query prompt stream env).2 = []) ∧
    (s.queryS prompt stream env).1 = s := by
  have key : ((s.query prompt stream env).1.success = true →
      printCalls (s.query prompt stream env).2 =
        if shouldStream stream s.options then
          [(s.query prompt stream env).1.content]
        else []) ∧
      ((s.query prompt stream env).1.success = false →
        printCalls (s.query prompt stream env).2 = []) := by
    by_cases hcmd : s.copilot_command.getD [] = []
    · have hq : s.query prompt stream env =
          ({ content := "", metadata := [],
             error := some "Session not initialized properly." }, []) := by
        simp [CopilotSession.query, hcmd]
      rw [hq]
      constructor
      · intro h
        simp [SessionResponse.success] at h
      · intro _
        simp [printCalls, List.filterMap]
    · have hq : s.query prompt stream env =
          queryLoop s.options (s.copilot_command.getD [] ++ ["explain", prompt])
            stream env s.options.retry_attempts 0 s.options.retry_delay none := by
        simp [CopilotSession.query, hcmd]
      rw [hq]
      exact queryLoop_prints s.options
        (s.copilot_command.getD [] ++ ["explain", prompt]) stream env
        s.options.retry_attempts 0 s.options.retry_delay none (by omega)
  exact ⟨fun b => rfl, rfl, key.1, key.2, rfl⟩

theorem copilot_query_stream_override_witness :
    printCalls (sessionA.query "p" (some true) envSucceedSecond).2 = ["hello"] ∧
    printCalls (sessionA.query "p" none envSucceedSecond).2 = [] ∧
    (sessionA.queryS "p" (some true) envSucceedSecond).1 = sessionA := by
  have h1 := (copilot_query_stream_override sessionA "p" (some true)
    envSucceedSecond).2.2.1 (by decide)
  have h2 := (copilot_query_stream_override sessionA "p" none
    envSucceedSecond).2.2.1 (by decide)
  refine ⟨by rw [h1]; decide, by rw [h2]; decide, rfl⟩

/-- C9: a query call leaves the adapter's state (options, including
`retry_delay`, and the resolved invocation command) unchanged, and every call
starts its backoff afresh: the first sleep of any call (when one occurs) has
the configured initial `retry_delay` (stated via `headD`, which also covers
calls that never sleep). -/
theorem copilot_query_preserves_session (s : CopilotSession) (prompt : String)
    (stream : Option Bool) (env : Nat → ProcResult) :
    (s.queryS prompt stream env).1 = s ∧
    (sleepDurations (s.query prompt stream env).2).headD s.options.retry_delay =
      s.options.retry_delay := by
  refine ⟨rfl, ?_⟩
  by_cases hcmd : s.copilot_command.getD [] = []
  · have hq : s.query prompt stream env =
        ({ content := "", metadata := [],
           error := some "Session not initialized properly." }, []) := by
      simp [CopilotSession.query, hcmd]
    rw [hq]
    rfl
  · have hq : s.query prompt stream env =
        queryLoop s.options (s.copilot_command.getD [] ++ ["explain", prompt])
          stream env s.options.retry_attempts 0 s.options.retry_delay none := by
      simp [CopilotSession.query, hcmd]
    rw [hq]
    have h := queryLoop_sleeps s.options
      (s.copilot_command.getD [] ++ ["explain", prompt]) stream env
      s.options.retry_attempts 0 s.options.retry_delay none (by omega)
    rw [h.1]
    cases hA : numLaunches (queryLoop s.options
        (s.copilot_command.getD [] ++ ["explain", prompt]) stream env
        s.options.retry_attempts 0 s.options.retry_delay none).2 - 1 with
    | zero => simp
    | succ n =>
      rw [List.range_succ_eq_map]
      simp

/-- C10: a query on an adapter whose invocation command was never resolved
raises nothing, launches no subprocess and runs no retry attempt: it returns
immediately an envelope with empty content and error
`"Session not initialized properly."`, whose `success` is false, with an empty
side-effect trace. -/
theorem copilot_query_uninitialized (s : CopilotSession) (prompt : String)
    (stream : Option Bool) (env : Nat → ProcResult)
    (h : s.copilot_command = none) :
    s.query prompt stream env =
      ({ content := "", metadata := [],
         error := some "Session not initialized properly." }, []) ∧
    (s.query prompt stream env).1.success = false ∧
    numLaunches (s.query prompt stream env).2 = 0 := by
  have hq : s.query prompt stream env =
      ({ content := "", metadata := [],
         error := some "Session not initialized properly." }, []) := by
    simp [CopilotSession.query, h]
  exact ⟨hq, by rw [hq]; rfl, by rw [hq]; rfl⟩

theorem copilot_query_uninitialized_witness :
    sessionClosed.query "p" none envAllFail =
      ({ content := "", metadata := [],
         error := some "Session not initialized properly." }, []) ∧
    (sessionClosed.query "p" none envAllFail).1.success = false ∧
    numLaunches (sessionClosed.query "p" none envAllFail).2 = 0 :=
  copilot_query_uninitialized sessionClosed "p" none envAllFail rfl
